import Mathlib

/-!
Shallow embedding of `src/worker.js` (File2Link_CF): a Cloudflare Worker that
turns Telegram file messages into direct download links.  External effects
(the Telegram Bot API, the KV binding, `fetch`) are modelled as explicit
oracles and an association-list store that is threaded through each handler.
-/

set_option autoImplicit false

namespace File2Link

/-- Dashboard configuration bindings read by the worker
(`WORKER_DOMAIN`, `CHANNEL_USERNAME`). -/
structure Env where
  workerDomain : String
  channelUsername : String
deriving Repr, DecidableEq

/-- `const MAX_FILE_SIZE = 20 * 1024 * 1024` (worker.js line 15). -/
def MAX_FILE_SIZE : Nat := 20 * 1024 * 1024

/-- JavaScript truthiness of an optional string value: `undefined` and the
empty string are falsy, every other string is truthy. -/
def jsTruthyStr : Option String → Bool
  | none => false
  | some s => s ≠ ""

/-- JavaScript `a || b` on an optional string `a` and a string default `b`. -/
def jsOrStr (a : Option String) (b : String) : String :=
  match a with
  | some s => if s = "" then b else s
  | none => b

/-- The metadata value persisted per link: `{ fileId, fileName, fileSize }`
(worker.js line 86).  `fileSize` is optional because `JSON.stringify` drops a
field whose value is `undefined`, and `file_size` is optional on the inbound
attachment. -/
structure FileMeta where
  fileId : String
  fileName : String
  fileSize : Option Nat
deriving Repr, DecidableEq

/-- The `LINKS_KV` namespace, modelled as an association list from key strings
to deserialized metadata values (`JSON.stringify`/`JSON.parse` round-trip on
`FileMeta` records, so values are modelled as the records themselves). -/
abbrev KVStore := List (String × FileMeta)

/-- `LINKS_KV.get(key)`: the stored value, or absent. -/
def kvGet (store : KVStore) (k : String) : Option FileMeta :=
  (store.find? (fun p => p.fst = k)).map (·.snd)

/-- `LINKS_KV.put(key, value)`: unconditional upsert. -/
def kvPut (store : KVStore) (k : String) (v : FileMeta) : KVStore :=
  store.filter (fun p => p.fst ≠ k) ++ [(k, v)]

/-- `LINKS_KV.delete(key)`: idempotent removal. -/
def kvDelete (store : KVStore) (k : String) : KVStore :=
  store.filter (fun p => p.fst ≠ k)

/-- Character-list core of `String.startsWith` (kept structural so that it
evaluates inside the kernel). -/
def isPrefixList : List Char → List Char → Bool
  | [], _ => true
  | _ :: _, [] => false
  | a :: as, b :: bs => a = b && isPrefixList as bs

/-- JavaScript `s.startsWith(p)`. -/
def strStartsWith (s p : String) : Bool := isPrefixList p.data s.data

/-- `LINKS_KV.list({ prefix })`: the names of the keys starting with the
given string. -/
def kvListKeys (store : KVStore) (pre : String) : List String :=
  (store.filter (fun p => strStartsWith p.fst pre)).map (·.fst)

/-- The composite KV key `user:<userId>:<token>` (worker.js lines 85 and 103). -/
def mkKey (u t : String) : String := "user:" ++ u ++ ":" ++ t

/-- One media attachment object of a Telegram message (document, video, audio
or a photo size variant); the fields the worker reads, each possibly absent. -/
structure Attachment where
  file_id : Option String
  file_name : Option String
  file_size : Option Nat
deriving Repr, DecidableEq

/-- The slice of a Telegram `message` object that the worker reads.
`chatId`/`fromId` model `message.chat.id` and `message.from.id`; the JS
falsiness guard on them is modelled as comparison with `0`. -/
structure TgMessage where
  chatId : Int
  fromId : Int
  text : Option String
  document : Option Attachment
  video : Option Attachment
  audio : Option Attachment
  photo : Option (List Attachment)
deriving Repr, DecidableEq

/-- The result of `extractFileInfo`: `{fileId?, fileName?, fileSize?}`. -/
structure FileInfo where
  fileId : Option String
  fileName : Option String
  fileSize : Option Nat
deriving Repr, DecidableEq

/-- `extractFileInfo(message)` (worker.js lines 164-170):
`message.document || message.video || message.audio ||
message.photo?.[message.photo.length - 1]`, then a derived filename
`file.file_name || (message.video ? 'video.mp4' : message.audio ?
'audio.mp3' : 'photo.jpg')`.  An attachment object is always truthy, so the
`||` chain is first-present; `photo[length - 1]` is the last array element,
absent for an empty array. -/
def extractFileInfo (message : TgMessage) : FileInfo :=
  let filePicked := message.document <|> message.video <|> message.audio <|>
    (message.photo.bind fun l => l.getLast?)
  match filePicked with
  | none => { fileId := none, fileName := none, fileSize := none }
  | some file =>
    let fileName := jsOrStr file.file_name
      (if message.video.isSome then "video.mp4"
       else if message.audio.isSome then "audio.mp3"
       else "photo.jpg")
    { fileId := file.file_id, fileName := some fileName, fileSize := file.file_size }

/-- The size guard `fileSize > MAX_FILE_SIZE` (worker.js line 80): comparing
`undefined` with a number is `false` in JavaScript, so an absent size never
exceeds the ceiling. -/
def sizeExceeds (fileSize : Option Nat) : Bool :=
  match fileSize with
  | some n => decide (MAX_FILE_SIZE < n)
  | none => false

/-- Outcome of the `getChatMember` call inside `isUserMember`: either the
fetch/json threw, or a parsed reply with its `ok` flag and, when
`result.status` is reachable, that status string.  `status = none` covers
both an absent `result` (reading `.status` throws, caught by the handler)
and an absent `status` field (`includes(undefined)` is false). -/
inductive ChatMemberReply
  | netError
  | reply (ok : Bool) (status : Option String)
deriving Repr, DecidableEq

/-- `isUserMember(userId)` (worker.js lines 177-187), with the external call
as an oracle: `data.ok && ['member','creator','administrator']
.includes(data.result.status)`, and `catch { return false }`. -/
def isUserMember (api : Int → ChatMemberReply) (userId : Int) : Bool :=
  match api userId with
  | .netError => false
  | .reply ok status =>
    if ok then
      match status with
      | none => false
      | some s => ["member", "creator", "administrator"].contains s
    else false

/-- `(meta.fileSize / 1024 / 1024).toFixed(2)` (worker.js line 149), on the
idealized rational value: two decimal places, ties rounded up, which is
`floor((100 * n + 2^19) / 2^20)` split into integer and fraction digits.
An absent `fileSize` makes the JS expression `NaN`. -/
def toFixed2MB : Option Nat → String
  | none => "NaN"
  | some n =>
    let scaled := (100 * n + 524288) / 1048576
    let frac := scaled % 100
    toString (scaled / 100) ++ "." ++
      (if frac < 10 then "0" ++ toString frac else toString frac)

/-- Reply text sent to non-members (worker.js line 63). -/
def joinPromptText (channelUsername : String) : String :=
  "⛔ To use this bot, you must first join " ++ channelUsername ++ "."

/-- Reply text of `/start` (worker.js line 68). -/
def startText : String :=
  "👋 Hi! Send me a file (up to 20MB), and I will generate a direct download link for you."

/-- Reply text when no file could be extracted (worker.js line 77). -/
def invalidFileText : String := "❗ Please send a valid file."

/-- Reply text for oversized files (worker.js line 81). -/
def tooLargeText : String := "❌ Sorry, bots cannot process files larger than 20MB."

/-- Reply text carrying the issued link (worker.js line 89). -/
def readyText (link : String) : String :=
  "✅ Your download link is ready:\n`" ++ link ++
    "`\n\n⚠️ This is a direct link from Telegram and may expire after a while."

/-- `/links` reply when the prefix scan is empty (worker.js line 138). -/
def noLinksText : String := "ℹ️ You have no active links."

/-- Opening line of the `/links` reply (worker.js line 141). -/
def linksHeaderText : String := "🔗 Your active links:\n\n"

/-- `serveFile` 400 body (worker.js line 100). -/
def missingParamsText : String := "⛔ Missing user ID or token."

/-- `serveFile` 403 body (worker.js line 106). -/
def expiredLinkText : String := "⛔ This link is invalid or has expired."

/-- `serveFile` 502 body (worker.js line 114). -/
def upstreamFailText : String :=
  "❌ Could not retrieve file from Telegram. The link may have expired."

/-- The public link `WORKER_DOMAIN/file/<userId>/<token>`
(worker.js lines 88 and 148). -/
def linkFor (env : Env) (userId : String) (token : String) : String :=
  env.workerDomain ++ "/file/" ++ userId ++ "/" ++ token

/-- Splitting a character list at every occurrence of a separator, the
JavaScript `split` way: `"".split(c)` is `[""]`, separators at the ends
produce empty fields. -/
def splitOnChar (sep : Char) : List Char → List (List Char)
  | [] => [[]]
  | c :: rest =>
    if c = sep then [] :: splitOnChar sep rest
    else
      match splitOnChar sep rest with
      | [] => [[c]]
      | w :: ws => (c :: w) :: ws

/-- JavaScript `s.split(sep)` for a one-character separator. -/
def jsSplit (s : String) (sep : Char) : List String :=
  (splitOnChar sep s.data).map String.mk

/-- `key.name.split(':')[2]` (worker.js line 147); an out-of-range index is
`undefined`, which the template literal renders as "undefined". -/
def tokenOfKey (k : String) : String :=
  (jsSplit k ':').getD 2 "undefined"

/-- The contribution of one listed key to the `/links` reply (the body of the
`for` loop, worker.js lines 142-152): skip it when the `get` came back empty,
otherwise one formatted bullet line. -/
def linkLine (env : Env) (store : KVStore) (userId : String) (k : String) : String :=
  match kvGet store k with
  | none => ""
  | some meta =>
    "• " ++ meta.fileName ++ " (" ++ toFixed2MB meta.fileSize ++ " MB)\n`" ++
      linkFor env userId (tokenOfKey k) ++ "`\n\n"

/-- `sendUserLinks(chatId, userId)` (worker.js lines 135-155) given the key
names returned by the (eventually-consistent) `list` call: the text of the
reply that is sent. -/
def sendUserLinksFrom (env : Env) (store : KVStore) (userId : String)
    (keys : List String) : String :=
  if keys.length = 0 then noLinksText
  else keys.foldl (fun acc k => acc ++ linkLine env store userId k)
    linksHeaderText

/-- `sendUserLinks` when the `list` snapshot agrees with the store. -/
def sendUserLinks (env : Env) (store : KVStore) (userId : String) : String :=
  sendUserLinksFrom env store userId (kvListKeys store ("user:" ++ userId ++ ":"))

/-- What `handleTelegramWebhook` does with one request: a `405` response, a
silent `200 OK`, or a `sendTelegramMessage(chatId, text)` call (which itself
always yields `200 OK`). -/
inductive WebhookOutcome
  | methodNotAllowed
  | silentAck
  | reply (chatId : Int) (text : String)
deriving Repr, DecidableEq

/-- `handleTelegramWebhook(request)` (worker.js lines 48-90).  `api` is the
`getChatMember` oracle used by `isUserMember`; `freshToken` is the value of
`crypto.randomUUID()`; `update` is `none` when the payload lacks
`message.chat.id` or `message.from.id` slots entirely, and the falsy-id guard
is the comparison with `0`. -/
def handleTelegramWebhook (env : Env) (api : Int → ChatMemberReply)
    (freshToken : String) (store : KVStore) (method : String)
    (update : Option TgMessage) : WebhookOutcome × KVStore :=
  if method ≠ "POST" then (.methodNotAllowed, store)
  else
    match update with
    | none => (.silentAck, store)
    | some message =>
      if message.chatId = 0 ∨ message.fromId = 0 then (.silentAck, store)
      else
        let chatId := message.chatId
        let userId := message.fromId
        if ¬ isUserMember api userId then
          (.reply chatId (joinPromptText env.channelUsername), store)
        else
          let t := message.text.getD ""
          if t = "/start" then
            (.reply chatId startText, store)
          else if t ≠ "" ∧ strStartsWith t "/links" then
            (.reply chatId (sendUserLinks env store (toString userId)), store)
          else
            let info := extractFileInfo message
            if ¬ jsTruthyStr info.fileId ∨ ¬ jsTruthyStr info.fileName then
              (.reply chatId invalidFileText, store)
            else if sizeExceeds info.fileSize then
              (.reply chatId tooLargeText, store)
            else
              let key := mkKey (toString userId) freshToken
              let meta : FileMeta := ⟨info.fileId.getD "", info.fileName.getD "", info.fileSize⟩
              let link := linkFor env (toString userId) freshToken
              (.reply chatId (readyText link), kvPut store key meta)

/-- An upstream HTTP response as the worker sees it (header names lowercase,
as the `Headers` class normalizes them; the body is an opaque stream). -/
structure HttpResponse where
  status : Nat
  statusText : String
  headers : List (String × String)
  body : String
deriving Repr, DecidableEq

/-- `headers.set(name, value)`: replace every entry with that (normalized)
name, or append one. -/
def headersSet (hs : List (String × String)) (nm v : String) :
    List (String × String) :=
  if hs.any (fun p => p.fst = nm) then
    hs.map (fun p => if p.fst = nm then (nm, v) else p)
  else hs ++ [(nm, v)]

/-- Header lookup by (normalized) name. -/
def headerGet (hs : List (String × String)) (nm : String) : Option String :=
  (hs.find? (fun p => p.fst = nm)).map (·.snd)

/-- One hexadecimal digit character, uppercase. -/
def hexDigit (n : Nat) : Char :=
  if n < 10 then Char.ofNat (48 + n) else Char.ofNat (55 + n)

/-- The UTF-8 bytes of one scalar value. -/
def utf8Bytes (c : Char) : List Nat :=
  let n := c.toNat
  if n < 128 then [n]
  else if n < 2048 then [192 + n / 64, 128 + n % 64]
  else if n < 65536 then [224 + n / 4096, 128 + (n / 64) % 64, 128 + n % 64]
  else [240 + n / 262144, 128 + (n / 4096) % 64, 128 + (n / 64) % 64, 128 + n % 64]

/-- The characters `encodeURIComponent` leaves unescaped:
ASCII alphanumerics and `- _ . ! ~ * ' ( )`. -/
def isUriUnreserved (c : Char) : Bool :=
  c.isAlphanum || c = '-' || c = '_' || c = '.' || c = '!' || c = '~' ||
    c = '*' || c = Char.ofNat 39 || c = '(' || c = ')'

/-- JavaScript `encodeURIComponent`: percent-encode the UTF-8 bytes of every
character outside the unreserved set. -/
def encodeURIComponent (s : String) : String :=
  s.data.foldl (fun acc c =>
    if isUriUnreserved c then acc.push c
    else acc ++ String.join ((utf8Bytes c).map fun b =>
      "%" ++ String.singleton (hexDigit (b / 16)) ++ String.singleton (hexDigit (b % 16))))
    ""

/-- The result of `serveFile`: an error `Response(text, {status})`, or the
relayed upstream response. -/
inductive ServeOutcome
  | error (status : Nat) (body : String)
  | stream (resp : HttpResponse)
deriving Repr, DecidableEq

/-- The error status of a serve outcome, if it is an error. -/
def errStatus : ServeOutcome → Option Nat
  | .error s _ => some s
  | .stream _ => none

/-- `serveFile(userId, token)` (worker.js lines 98-127).  `resolve` is the
`getTelegramFileLink` oracle (null on failure); `fetchUrl` is the `fetch`
oracle for the resolved URL.  `userId`/`token` are the path segments, absent
when the path is short; the `!userId || !token` guard is string falsiness. -/
def serveFile (resolve : String → Option String) (fetchUrl : String → HttpResponse)
    (store : KVStore) (userId token : Option String) : ServeOutcome × KVStore :=
  if ¬ jsTruthyStr userId ∨ ¬ jsTruthyStr token then
    (.error 400 missingParamsText, store)
  else
    let key := mkKey (userId.getD "") (token.getD "")
    match kvGet store key with
    | none => (.error 403 expiredLinkText, store)
    | some meta =>
      match resolve meta.fileId with
      | none =>
        (.error 502 upstreamFailText, kvDelete store key)
      | some url =>
        let fileResponse := fetchUrl url
        let headers := headersSet fileResponse.headers "content-disposition"
          ("attachment; filename=\"" ++ encodeURIComponent meta.fileName ++ "\"")
        (.stream { status := fileResponse.status, statusText := fileResponse.statusText,
                   headers := headers, body := fileResponse.body }, store)

/-! ### Generic lemmas about the embedded primitives -/

theorem kvGet_kvPut_self (store : KVStore) (k : String) (v : FileMeta) :
    kvGet (kvPut store k v) k = some v := by
  induction store with
  | nil => simp [kvGet, kvPut]
  | cons p rest ih =>
    by_cases h : p.fst = k
    · simp [kvGet, kvPut, h]
    · simp [kvGet, kvPut, h]

theorem kvGet_kvDelete_self (store : KVStore) (k : String) :
    kvGet (kvDelete store k) k = none := by
  induction store with
  | nil => simp [kvGet, kvDelete]
  | cons p rest ih =>
    by_cases h : p.fst = k
    · simp [kvGet, kvDelete, h]
    · simp [kvGet, kvDelete, h]

theorem headerGet_map_replace (hs : List (String × String)) (nm v : String)
    (h : hs.any (fun p => p.fst = nm) = true) :
    headerGet (hs.map (fun p => if p.fst = nm then (nm, v) else p)) nm = some v := by
  induction hs with
  | nil => simp at h
  | cons p rest ih =>
    by_cases hp : p.fst = nm
    · simp [headerGet, List.find?, hp]
    · have hrest : rest.any (fun p => p.fst = nm) = true := by
        simpa [List.any_cons, hp] using h
      simpa [headerGet, List.find?, hp] using ih hrest

theorem headerGet_append_single (hs : List (String × String)) (nm v : String)
    (h : hs.any (fun p => p.fst = nm) = false) :
    headerGet (hs ++ [(nm, v)]) nm = some v := by
  induction hs with
  | nil => simp [headerGet, List.find?]
  | cons p rest ih =>
    have hp : ¬ p.fst = nm := by
      intro e
      simp [List.any_cons, e] at h
    have hrest : rest.any (fun p => p.fst = nm) = false := by
      simpa [List.any_cons, hp] using h
    simpa [headerGet, List.find?, hp] using ih hrest

theorem headerGet_headersSet_self (hs : List (String × String)) (nm v : String) :
    headerGet (headersSet hs nm v) nm = some v := by
  unfold headersSet
  by_cases hany : hs.any (fun p => p.fst = nm) = true
  · simpa [hany] using headerGet_map_replace hs nm v hany
  · have : hs.any (fun p => p.fst = nm) = false := by
      cases hfa : hs.any (fun p => p.fst = nm) with
      | true => exact absurd hfa hany
      | false => rfl
    simpa [this] using headerGet_append_single hs nm v this

theorem headerGet_map_other (hs : List (String × String)) (nm v nm2 : String)
    (hne : nm2 ≠ nm) :
    headerGet (hs.map (fun p => if p.fst = nm then (nm, v) else p)) nm2 =
      headerGet hs nm2 := by
  induction hs with
  | nil => simp [headerGet]
  | cons p rest ih =>
    by_cases hp : p.fst = nm
    · have hp2 : ¬ p.fst = nm2 := by
        rw [hp]
        exact fun e => hne e.symm
      have hnm2 : ¬ nm = nm2 := fun e => hne e.symm
      simp only [List.map_cons, if_pos hp, headerGet] at *
      rw [List.find?_cons_of_neg _ (by simpa using hnm2),
        List.find?_cons_of_neg _ (by simpa using hp2)]
      exact ih
    · by_cases hq : p.fst = nm2
      · simp only [List.map_cons, if_neg hp, headerGet]
        rw [List.find?_cons_of_pos _ (by simpa using hq),
          List.find?_cons_of_pos _ (by simpa using hq)]
      · simp only [List.map_cons, if_neg hp, headerGet] at *
        rw [List.find?_cons_of_neg _ (by simpa using hq),
          List.find?_cons_of_neg _ (by simpa using hq)]
        exact ih

theorem headerGet_append_single_other (hs : List (String × String)) (nm v nm2 : String)
    (hne : nm2 ≠ nm) :
    headerGet (hs ++ [(nm, v)]) nm2 = headerGet hs nm2 := by
  induction hs with
  | nil =>
    have hnm2 : ¬ nm = nm2 := fun e => hne e.symm
    simp only [List.nil_append, headerGet]
    rw [List.find?_cons_of_neg _ (by simpa using hnm2)]
  | cons p rest ih =>
    by_cases hq : p.fst = nm2
    · simp only [List.cons_append, headerGet]
      rw [List.find?_cons_of_pos _ (by simpa using hq),
        List.find?_cons_of_pos _ (by simpa using hq)]
    · simp only [List.cons_append, headerGet] at *
      rw [List.find?_cons_of_neg _ (by simpa using hq),
        List.find?_cons_of_neg _ (by simpa using hq)]
      exact ih

theorem headerGet_headersSet_other (hs : List (String × String)) (nm v nm2 : String)
    (hne : nm2 ≠ nm) :
    headerGet (headersSet hs nm v) nm2 = headerGet hs nm2 := by
  unfold headersSet
  by_cases hany : hs.any (fun p => p.fst = nm) = true
  · simpa [hany] using headerGet_map_other hs nm v nm2 hne
  · have hfalse : hs.any (fun p => p.fst = nm) = false := by
      cases hfa : hs.any (fun p => p.fst = nm) with
      | true => exact absurd hfa hany
      | false => rfl
    simpa [hfalse] using headerGet_append_single_other hs nm v nm2 hne

theorem joinStrCons (s : String) (l : List String) :
    String.join (s :: l) = s ++ String.join l := by
  cases s
  simp [String.join_eq]
  rfl

theorem foldl_append_join (f : String → String) (keys : List String) (a : String) :
    keys.foldl (fun acc k => acc ++ f k) a = a ++ String.join (keys.map f) := by
  induction keys generalizing a with
  | nil => simp [String.join_eq]
  | cons k rest ih =>
    simp only [List.foldl_cons, List.map_cons, joinStrCons, ih, String.append_assoc]

theorem splitOnChar_no_sep (sep : Char) (w : List Char) (h : sep ∉ w) :
    splitOnChar sep w = [w] := by
  induction w with
  | nil => rfl
  | cons c cs ih =>
    have hc : ¬ c = sep := fun e => h (e ▸ List.mem_cons_self c cs)
    have hcs : sep ∉ cs := fun hm => h (List.mem_cons_of_mem c hm)
    simp [splitOnChar, hc, ih hcs]

theorem splitOnChar_append_sep (sep : Char) (w rest : List Char) (h : sep ∉ w) :
    splitOnChar sep (w ++ sep :: rest) = w :: splitOnChar sep rest := by
  induction w with
  | nil => simp [splitOnChar]
  | cons c cs ih =>
    have hc : ¬ c = sep := fun e => h (e ▸ List.mem_cons_self c cs)
    have hcs : sep ∉ cs := fun hm => h (List.mem_cons_of_mem c hm)
    simp [splitOnChar, hc, ih hcs]

theorem tokenOfKey_mkKey (u t : String) (hu : ':' ∉ u.data) (ht : ':' ∉ t.data) :
    tokenOfKey (mkKey u t) = t := by
  unfold tokenOfKey mkKey jsSplit
  have hdata : ("user:" ++ u ++ ":" ++ t).data =
      ['u', 's', 'e', 'r'] ++ ':' :: (u.data ++ ':' :: t.data) := by
    simp [String.data_append]
  rw [hdata, splitOnChar_append_sep _ _ _ (by decide),
    splitOnChar_append_sep _ _ _ hu, splitOnChar_no_sep _ _ ht]
  cases t
  rfl

theorem mem_of_getLastQ {α : Type} : ∀ (l : List α) (p : α), l.getLast? = some p → p ∈ l
  | [a], p, h => by
    simp [List.getLast?] at h
    simp [h]
  | a :: b :: l, p, h => by
    have : (b :: l).getLast? = some p := by
      simpa [List.getLast?_cons_cons] using h
    exact List.mem_cons_of_mem a (mem_of_getLastQ (b :: l) p this)

theorem getLast_is_max {α : Type} (f : α → Nat) :
    ∀ (l : List α), l.Pairwise (fun a b => f a ≤ f b) →
      ∀ p, l.getLast? = some p → ∀ q ∈ l, f q ≤ f p
  | [], _, p, hp => by simp [List.getLast?] at hp
  | [a], hpw, p, hp => by
    simp [List.getLast?] at hp
    subst hp
    simp
  | a :: b :: l, hpw, p, hp => by
    have hp2 : (b :: l).getLast? = some p := by
      simpa [List.getLast?_cons_cons] using hp
    have htail : (b :: l).Pairwise (fun a b => f a ≤ f b) := hpw.of_cons
    intro q hq
    rcases List.mem_cons.mp hq with rfl | hq2
    · have hpmem : p ∈ b :: l := mem_of_getLastQ _ _ hp2
      exact (List.pairwise_cons.mp hpw).1 p hpmem
    · exact getLast_is_max f (b :: l) htail p hp2 q hq2

/-! ### Shared concrete test fixtures -/

/-- A concrete environment for witness instantiations. -/
def env0 : Env := ⟨"https://w.example", "@Chan"⟩

/-- A `getChatMember` oracle that always reports a plain member. -/
def memberApi : Int → ChatMemberReply := fun _ => .reply true (some "member")

/-- A `getChatMember` oracle whose reply has `ok = false`. -/
def notOkApi : Int → ChatMemberReply := fun _ => .reply false none

/-- A resolver oracle that always fails (upstream `getFile` not ok). -/
def failResolve : String → Option String := fun _ => none

/-- A resolver oracle that always succeeds with a fixed URL. -/
def okResolve : String → Option String := fun _ => some "https://api.example/file/x"

/-- A fixed upstream response used by the fetch oracle in witnesses. -/
def upstream0 : HttpResponse :=
  ⟨200, "OK", [("content-type", "application/pdf"), ("content-disposition", "inline")], "BYTES"⟩

/-- A fetch oracle returning `upstream0`. -/
def fetch0 : String → HttpResponse := fun _ => upstream0

/-! ### The claims -/

/-- Claim C7: for every user identifier, the membership checker returns true
exactly when the external API reply is well-formed, reports success, and
reports the user's status as one of member, creator, or administrator; on any
other reply, malformed response, or network exception it returns false
without propagating an error. -/
theorem c7_membership_check (api : Int → ChatMemberReply) (userId : Int) :
    isUserMember api userId = true ↔
      ∃ s, api userId = .reply true (some s) ∧
        (s = "member" ∨ s = "creator" ∨ s = "administrator") := by
  unfold isUserMember
  cases h : api userId with
  | netError => simp
  | reply ok status =>
    cases ok with
    | false => simp
    | true =>
      cases status with
      | none => simp
      | some s => simp [List.contains]

/-- Claim C1: a file message whose extracted size is exactly 20*1024*1024
bytes is accepted (a link is issued and a record stored); any size strictly
greater is answered with the size-rejection message, with the store left
unchanged — the ceiling is inclusive. -/
theorem c1_size_ceiling_inclusive (env : Env) (api : Int → ChatMemberReply)
    (tok : String) (store : KVStore) (message : TgMessage)
    (fid fname : String) (sz : Nat)
    (hchat : message.chatId ≠ 0) (hfrom : message.fromId ≠ 0)
    (hmem : isUserMember api message.fromId = true)
    (htext : message.text = none)
    (hinfo : extractFileInfo message = ⟨some fid, some fname, some sz⟩)
    (hfid : fid ≠ "") (hfname : fname ≠ "") :
    (sz = 20 * 1024 * 1024 →
      handleTelegramWebhook env api tok store "POST" (some message) =
        (.reply message.chatId
            (readyText (linkFor env (toString message.fromId) tok)),
          kvPut store (mkKey (toString message.fromId) tok) ⟨fid, fname, some sz⟩)) ∧
    (20 * 1024 * 1024 < sz →
      handleTelegramWebhook env api tok store "POST" (some message) =
        (.reply message.chatId tooLargeText, store)) := by
  constructor
  · intro hsz
    subst hsz
    simp [handleTelegramWebhook, hchat, hfrom, hmem, htext, hinfo, jsTruthyStr,
      hfid, hfname, sizeExceeds, MAX_FILE_SIZE]
  · intro hsz
    simp [handleTelegramWebhook, hchat, hfrom, hmem, htext, hinfo, jsTruthyStr,
      hfid, hfname, sizeExceeds, MAX_FILE_SIZE, hsz]

/-- The C1 witness message: a document attachment of exactly 20 MiB. -/
def c1Msg : TgMessage :=
  ⟨5, 42, none, some ⟨some "abc", some "big.bin", some (20 * 1024 * 1024)⟩,
    none, none, none⟩

/-- Claim C1 witness: the boundary case at a concrete input. -/
theorem c1_witness :
    handleTelegramWebhook env0 memberApi "tok" [] "POST" (some c1Msg) =
      (.reply c1Msg.chatId
          (readyText (linkFor env0 (toString c1Msg.fromId) "tok")),
        kvPut [] (mkKey (toString c1Msg.fromId) "tok")
          ⟨"abc", "big.bin", some (20 * 1024 * 1024)⟩) :=
  (c1_size_ceiling_inclusive env0 memberApi "tok" [] c1Msg "abc" "big.bin"
    (20 * 1024 * 1024) (by decide) (by decide) (by decide) rfl rfl
    (by decide) (by decide)).1 rfl

/-- Claim C4: a well-formed message from a non-member is answered with
exactly the membership-instruction reply, before command dispatch and file
extraction, and the store is unchanged — whatever the message content,
`/start` included. -/
theorem c4_nonmember_blocked (env : Env) (api : Int → ChatMemberReply)
    (tok : String) (store : KVStore) (message : TgMessage)
    (hchat : message.chatId ≠ 0) (hfrom : message.fromId ≠ 0)
    (hmem : isUserMember api message.fromId = false) :
    handleTelegramWebhook env api tok store "POST" (some message) =
      (.reply message.chatId (joinPromptText env.channelUsername), store) := by
  simp [handleTelegramWebhook, hchat, hfrom, hmem]

/-- Claim C4 witness: a non-member sending `/start` over a nonempty store. -/
theorem c4_witness :
    handleTelegramWebhook env0 notOkApi "tok"
        [(mkKey "9" "t0", ⟨"f", "n.bin", some 1⟩)] "POST"
        (some ⟨5, 42, some "/start", none, none, none, none⟩) =
      (.reply 5 (joinPromptText env0.channelUsername),
        [(mkKey "9" "t0", ⟨"f", "n.bin", some 1⟩)]) :=
  c4_nonmember_blocked env0 notOkApi "tok"
    [(mkKey "9" "t0", ⟨"f", "n.bin", some 1⟩)]
    ⟨5, 42, some "/start", none, none, none, none⟩
    (by decide) (by decide) (by decide)

/-- Claim C9: an accepted file message from a member stores exactly
`{fileId, fileName, fileSize}` under `user:<userId>:<token>` for the fresh
token, and the reply carries the link `<base>/file/<userId>/<token>`. -/
theorem c9_issue_link (env : Env) (api : Int → ChatMemberReply)
    (tok : String) (store : KVStore) (message : TgMessage)
    (fid fname : String) (fsize : Option Nat)
    (hchat : message.chatId ≠ 0) (hfrom : message.fromId ≠ 0)
    (hmem : isUserMember api message.fromId = true)
    (htext : message.text = none)
    (hinfo : extractFileInfo message = ⟨some fid, some fname, fsize⟩)
    (hfid : fid ≠ "") (hfname : fname ≠ "")
    (hsize : sizeExceeds fsize = false) :
    handleTelegramWebhook env api tok store "POST" (some message) =
      (.reply message.chatId
          (readyText (linkFor env (toString message.fromId) tok)),
        kvPut store (mkKey (toString message.fromId) tok) ⟨fid, fname, fsize⟩) ∧
    kvGet (kvPut store (mkKey (toString message.fromId) tok) ⟨fid, fname, fsize⟩)
        (mkKey (toString message.fromId) tok) = some ⟨fid, fname, fsize⟩ := by
  constructor
  · simp [handleTelegramWebhook, hchat, hfrom, hmem, htext, hinfo, jsTruthyStr,
      hfid, hfname, hsize]
  · exact kvGet_kvPut_self store (mkKey (toString message.fromId) tok) ⟨fid, fname, fsize⟩

/-- The C9 witness message: the spec's example document. -/
def c9Msg : TgMessage :=
  ⟨42, 42, none, some ⟨some "abc", some "report.pdf", some 1048576⟩,
    none, none, none⟩

/-- Claim C9 witness: the spec's worked example at user 42. -/
theorem c9_witness :
    handleTelegramWebhook env0 memberApi "tok" [] "POST" (some c9Msg) =
      (.reply 42 (readyText (linkFor env0 "42" "tok")),
        kvPut [] (mkKey "42" "tok") ⟨"abc", "report.pdf", some 1048576⟩) ∧
    kvGet (kvPut [] (mkKey "42" "tok") ⟨"abc", "report.pdf", some 1048576⟩)
        (mkKey "42" "tok") = some ⟨"abc", "report.pdf", some 1048576⟩ :=
  c9_issue_link env0 memberApi "tok" [] c9Msg "abc" "report.pdf" (some 1048576)
    (by decide) (by decide) (by decide) rfl rfl (by decide) (by decide) rfl

/-- Claim C10: an attachment with no `file_size` field passes the size guard
(`undefined > MAX_FILE_SIZE` is false), so the record is created with an
absent `fileSize`; the ceiling is only enforced for numeric sizes. -/
theorem c10_absent_size_bypasses_ceiling (env : Env) (api : Int → ChatMemberReply)
    (tok : String) (store : KVStore) (message : TgMessage)
    (fid fname : String)
    (hchat : message.chatId ≠ 0) (hfrom : message.fromId ≠ 0)
    (hmem : isUserMember api message.fromId = true)
    (htext : message.text = none)
    (hinfo : extractFileInfo message = ⟨some fid, some fname, none⟩)
    (hfid : fid ≠ "") (hfname : fname ≠ "") :
    sizeExceeds none = false ∧
    handleTelegramWebhook env api tok store "POST" (some message) =
      (.reply message.chatId
          (readyText (linkFor env (toString message.fromId) tok)),
        kvPut store (mkKey (toString message.fromId) tok) ⟨fid, fname, none⟩) := by
  refine ⟨rfl, ?_⟩
  simp [handleTelegramWebhook, hchat, hfrom, hmem, htext, hinfo, jsTruthyStr,
    hfid, hfname, sizeExceeds]

/-- The C10 witness message: a document with no `file_size`. -/
def c10Msg : TgMessage :=
  ⟨5, 42, none, some ⟨some "abc", some "nosize.bin", none⟩, none, none, none⟩

/-- Claim C10 witness: the size guard passes with no reported size. -/
theorem c10_witness :
    sizeExceeds none = false ∧
    handleTelegramWebhook env0 memberApi "tok" [] "POST" (some c10Msg) =
      (.reply 5 (readyText (linkFor env0 "42" "tok")),
        kvPut [] (mkKey "42" "tok") ⟨"abc", "nosize.bin", none⟩) :=
  c10_absent_size_bypasses_ceiling env0 memberApi "tok" [] c10Msg "abc" "nosize.bin"
    (by decide) (by decide) (by decide) rfl rfl (by decide) (by decide)

/-- Claim C2: the file-serving handler's pre-stream error statuses are
exactly 400 (missing userId or token), 403 (composite key absent from the
store), and 502 (upstream resolution of the stored fileId failed), each under
precisely that condition. -/
theorem c2_serve_error_statuses (resolve : String → Option String)
    (fetchUrl : String → HttpResponse) (store : KVStore)
    (userId token : Option String) :
    (errStatus (serveFile resolve fetchUrl store userId token).fst = some 400 ↔
      ¬ (jsTruthyStr userId = true ∧ jsTruthyStr token = true)) ∧
    (errStatus (serveFile resolve fetchUrl store userId token).fst = some 403 ↔
      jsTruthyStr userId = true ∧ jsTruthyStr token = true ∧
        kvGet store (mkKey (userId.getD "") (token.getD "")) = none) ∧
    (errStatus (serveFile resolve fetchUrl store userId token).fst = some 502 ↔
      jsTruthyStr userId = true ∧ jsTruthyStr token = true ∧
        ∃ meta, kvGet store (mkKey (userId.getD "") (token.getD "")) = some meta ∧
          resolve meta.fileId = none) ∧
    (errStatus (serveFile resolve fetchUrl store userId token).fst = none ∨
      errStatus (serveFile resolve fetchUrl store userId token).fst = some 400 ∨
      errStatus (serveFile resolve fetchUrl store userId token).fst = some 403 ∨
      errStatus (serveFile resolve fetchUrl store userId token).fst = some 502) := by
  by_cases hguard : ¬ jsTruthyStr userId = true ∨ ¬ jsTruthyStr token = true
  · have h400 : (serveFile resolve fetchUrl store userId token).fst =
        .error 400 missingParamsText := by
      unfold serveFile
      rw [if_pos hguard]
    rw [h400]
    simp only [errStatus, Option.some.injEq]
    refine ⟨?_, ?_, ?_, ?_⟩ <;> tauto
  · have hu : jsTruthyStr userId = true := by tauto
    have ht : jsTruthyStr token = true := by tauto
    cases hkv : kvGet store (mkKey (userId.getD "") (token.getD "")) with
    | none =>
      simp [serveFile, hguard, errStatus, hkv, hu, ht]
    | some meta =>
      cases hres : resolve meta.fileId with
      | none =>
        simp [serveFile, hguard, errStatus, hkv, hres, hu, ht]
      | some url =>
        simp [serveFile, hguard, errStatus, hkv, hres, hu, ht]

/-- Claim C3: when upstream resolution fails during a serve, the record is
deleted from the store before the 502 result, and every later serve of the
same (userId, token) pair gives exactly the result of serving a token that
was never issued: 403 with no store change. -/
theorem c3_self_cleaning (resolve : String → Option String)
    (fetchUrl : String → HttpResponse) (store : KVStore) (u t : String)
    (meta : FileMeta) (hu : u ≠ "") (ht : t ≠ "")
    (hget : kvGet store (mkKey u t) = some meta)
    (hres : resolve meta.fileId = none) :
    serveFile resolve fetchUrl store (some u) (some t) =
      (.error 502 upstreamFailText, kvDelete store (mkKey u t)) ∧
    kvGet (kvDelete store (mkKey u t)) (mkKey u t) = none ∧
    serveFile resolve fetchUrl (kvDelete store (mkKey u t)) (some u) (some t) =
      (.error 403 expiredLinkText, kvDelete store (mkKey u t)) ∧
    (∀ store2 : KVStore, kvGet store2 (mkKey u t) = none →
      serveFile resolve fetchUrl store2 (some u) (some t) =
        (.error 403 expiredLinkText, store2)) := by
  have hdel := kvGet_kvDelete_self store (mkKey u t)
  have h403 : ∀ store2 : KVStore, kvGet store2 (mkKey u t) = none →
      serveFile resolve fetchUrl store2 (some u) (some t) =
        (.error 403 expiredLinkText, store2) := by
    intro store2 h2
    simp [serveFile, jsTruthyStr, hu, ht, h2]
  refine ⟨?_, hdel, h403 _ hdel, h403⟩
  simp [serveFile, jsTruthyStr, hu, ht, hget, hres]

/-- The store fixture for the serve witnesses: one record for user 42. -/
def store42 : KVStore := [(mkKey "42" "tok", ⟨"abc", "report.pdf", some 1048576⟩)]

/-- Claim C3 witness: resolution failure on the concrete one-record store. -/
theorem c3_witness :
    serveFile failResolve fetch0 store42 (some "42") (some "tok") =
      (.error 502 upstreamFailText, kvDelete store42 (mkKey "42" "tok")) ∧
    kvGet (kvDelete store42 (mkKey "42" "tok")) (mkKey "42" "tok") = none ∧
    serveFile failResolve fetch0 (kvDelete store42 (mkKey "42" "tok")) (some "42") (some "tok") =
      (.error 403 expiredLinkText, kvDelete store42 (mkKey "42" "tok")) ∧
    (∀ store2 : KVStore, kvGet store2 (mkKey "42" "tok") = none →
      serveFile failResolve fetch0 store2 (some "42") (some "tok") =
        (.error 403 expiredLinkText, store2)) :=
  c3_self_cleaning failResolve fetch0 store42 "42" "tok"
    ⟨"abc", "report.pdf", some 1048576⟩ (by decide) (by decide) rfl rfl

/-- Claim C8: a successful serve relays the upstream body, status and status
text unchanged, preserves every upstream header except Content-Disposition,
and sets Content-Disposition to an attachment disposition carrying the stored
filename percent-encoded. -/
theorem c8_stream_relay (resolve : String → Option String)
    (fetchUrl : String → HttpResponse) (store : KVStore) (u t : String)
    (meta : FileMeta) (url : String)
    (hu : u ≠ "") (ht : t ≠ "")
    (hget : kvGet store (mkKey u t) = some meta)
    (hres : resolve meta.fileId = some url) :
    serveFile resolve fetchUrl store (some u) (some t) =
      (.stream ⟨(fetchUrl url).status, (fetchUrl url).statusText,
        headersSet (fetchUrl url).headers "content-disposition"
          ("attachment; filename=\"" ++ encodeURIComponent meta.fileName ++ "\""),
        (fetchUrl url).body⟩, store) ∧
    headerGet (headersSet (fetchUrl url).headers "content-disposition"
        ("attachment; filename=\"" ++ encodeURIComponent meta.fileName ++ "\""))
      "content-disposition" =
      some ("attachment; filename=\"" ++ encodeURIComponent meta.fileName ++ "\"") ∧
    (∀ nm, nm ≠ "content-disposition" →
      headerGet (headersSet (fetchUrl url).headers "content-disposition"
          ("attachment; filename=\"" ++ encodeURIComponent meta.fileName ++ "\""))
        nm = headerGet (fetchUrl url).headers nm) := by
  refine ⟨?_, headerGet_headersSet_self _ _ _,
    fun nm hnm => headerGet_headersSet_other _ _ _ _ hnm⟩
  simp [serveFile, jsTruthyStr, hu, ht, hget, hres]

/-- Claim C8 witness: the relay on the concrete one-record store and the
fixed upstream response. -/
theorem c8_witness :
    serveFile okResolve fetch0 store42 (some "42") (some "tok") =
      (.stream ⟨(fetch0 "https://api.example/file/x").status,
        (fetch0 "https://api.example/file/x").statusText,
        headersSet (fetch0 "https://api.example/file/x").headers "content-disposition"
          ("attachment; filename=\"" ++ encodeURIComponent "report.pdf" ++ "\""),
        (fetch0 "https://api.example/file/x").body⟩, store42) ∧
    headerGet (headersSet (fetch0 "https://api.example/file/x").headers "content-disposition"
        ("attachment; filename=\"" ++ encodeURIComponent "report.pdf" ++ "\""))
      "content-disposition" =
      some ("attachment; filename=\"" ++ encodeURIComponent "report.pdf" ++ "\"") ∧
    (∀ nm, nm ≠ "content-disposition" →
      headerGet (headersSet (fetch0 "https://api.example/file/x").headers "content-disposition"
          ("attachment; filename=\"" ++ encodeURIComponent "report.pdf" ++ "\""))
        nm = headerGet (fetch0 "https://api.example/file/x").headers nm) :=
  c8_stream_relay okResolve fetch0 store42 "42" "tok"
    ⟨"abc", "report.pdf", some 1048576⟩ "https://api.example/file/x"
    (by decide) (by decide) rfl rfl

/-- Claim C5: file extraction prefers document, then video, then audio, then
the last photo variant (the largest one for the size-ascending arrays
Telegram sends); the filename is the explicit `file_name` when present and
nonempty, else "video.mp4" / "audio.mp3" / "photo.jpg" for a selected video /
audio / photo; with no extractable attachment the webhook replies with the
validation error and leaves the store unchanged. -/
theorem c5_extraction (message : TgMessage) :
    (∀ d nm, message.document = some d → d.file_name = some nm → nm ≠ "" →
      extractFileInfo message = ⟨d.file_id, some nm, d.file_size⟩) ∧
    (∀ v nm, message.document = none → message.video = some v →
      v.file_name = some nm → nm ≠ "" →
      extractFileInfo message = ⟨v.file_id, some nm, v.file_size⟩) ∧
    (∀ v, message.document = none → message.video = some v → v.file_name = none →
      extractFileInfo message = ⟨v.file_id, some "video.mp4", v.file_size⟩) ∧
    (∀ a nm, message.document = none → message.video = none → message.audio = some a →
      a.file_name = some nm → nm ≠ "" →
      extractFileInfo message = ⟨a.file_id, some nm, a.file_size⟩) ∧
    (∀ a, message.document = none → message.video = none → message.audio = some a →
      a.file_name = none →
      extractFileInfo message = ⟨a.file_id, some "audio.mp3", a.file_size⟩) ∧
    (∀ ps p, message.document = none → message.video = none → message.audio = none →
      message.photo = some ps → ps.getLast? = some p → p.file_name = none →
      extractFileInfo message = ⟨p.file_id, some "photo.jpg", p.file_size⟩ ∧
      (ps.Pairwise (fun q r => q.file_size.getD 0 ≤ r.file_size.getD 0) →
        ∀ q ∈ ps, q.file_size.getD 0 ≤ p.file_size.getD 0)) ∧
    (message.document = none → message.video = none → message.audio = none →
      (message.photo = none ∨ message.photo = some ([] : List Attachment)) →
      extractFileInfo message = ⟨none, none, none⟩ ∧
      (∀ (env : Env) (api : Int → ChatMemberReply) (tok : String) (store : KVStore),
        message.chatId ≠ 0 → message.fromId ≠ 0 →
        isUserMember api message.fromId = true → message.text = none →
        handleTelegramWebhook env api tok store "POST" (some message) =
          (.reply message.chatId invalidFileText, store))) := by
  refine ⟨?_, ?_, ?_, ?_, ?_, ?_, ?_⟩
  · intro d nm hd hnm hne
    simp [extractFileInfo, hd, jsOrStr, hnm, hne]
  · intro v nm hd hv hnm hne
    simp [extractFileInfo, hd, hv, jsOrStr, hnm, hne]
  · intro v hd hv hnm
    simp [extractFileInfo, hd, hv, jsOrStr, hnm]
  · intro a nm hd hv ha hnm hne
    simp [extractFileInfo, hd, hv, ha, jsOrStr, hnm, hne]
  · intro a hd hv ha hnm
    simp [extractFileInfo, hd, hv, ha, jsOrStr, hnm]
  · intro ps p hd hv ha hp hlast hnm
    refine ⟨by simp [extractFileInfo, hd, hv, ha, hp, hlast, jsOrStr, hnm], ?_⟩
    intro hsort q hq
    exact getLast_is_max (fun a => a.file_size.getD 0) ps hsort p hlast q hq
  · intro hd hv ha hp
    have hempty : extractFileInfo message = ⟨none, none, none⟩ := by
      rcases hp with h | h <;> simp [extractFileInfo, hd, hv, ha, h]
    refine ⟨hempty, ?_⟩
    intro env api tok store hchat hfrom hmem htext
    simp [handleTelegramWebhook, hchat, hfrom, hmem, htext, hempty, jsTruthyStr]

/-- The C5 witness message: a video with no explicit name. -/
def c5Msg : TgMessage :=
  ⟨5, 42, none, none, some ⟨some "v1", none, some 7⟩, none, none⟩

/-- Claim C5 witness: the video default filename at a concrete message. -/
theorem c5_witness :
    extractFileInfo c5Msg = ⟨some "v1", some "video.mp4", some 7⟩ :=
  (c5_extraction c5Msg).2.2.1 ⟨some "v1", none, some 7⟩ rfl rfl rfl

/-- Claim C6: the link-listing flow sends the fixed "no active links" notice
when the prefix scan over `user:<userId>:` yields no keys; otherwise its
reply is the header followed by one formatted line per listed record —
filename, size in MiB to two decimal places, and the reconstructed
`/file/<userId>/<token>` link — skipping any key whose value is gone. -/
theorem c6_list_links (env : Env) (store : KVStore) (userId : String) :
    (kvListKeys store ("user:" ++ userId ++ ":") = [] →
      sendUserLinks env store userId = noLinksText) ∧
    (∀ keys : List String, keys ≠ [] →
      sendUserLinksFrom env store userId keys =
        linksHeaderText ++ String.join (keys.map (linkLine env store userId))) ∧
    (∀ k, kvGet store k = none → linkLine env store userId k = "") ∧
    (∀ k meta, kvGet store k = some meta →
      linkLine env store userId k =
        "• " ++ meta.fileName ++ " (" ++ toFixed2MB meta.fileSize ++ " MB)\n`" ++
          linkFor env userId (tokenOfKey k) ++ "`\n\n") ∧
    (∀ tok meta, kvGet store (mkKey userId tok) = some meta →
      ':' ∉ userId.data → ':' ∉ tok.data →
      linkLine env store userId (mkKey userId tok) =
        "• " ++ meta.fileName ++ " (" ++ toFixed2MB meta.fileSize ++ " MB)\n`" ++
          linkFor env userId tok ++ "`\n\n") := by
  have hline : ∀ k meta, kvGet store k = some meta →
      linkLine env store userId k =
        "• " ++ meta.fileName ++ " (" ++ toFixed2MB meta.fileSize ++ " MB)\n`" ++
          linkFor env userId (tokenOfKey k) ++ "`\n\n" := by
    intro k meta hk
    simp [linkLine, hk]
  refine ⟨?_, ?_, ?_, hline, ?_⟩
  · intro hkeys
    simp [sendUserLinks, sendUserLinksFrom, hkeys]
  · intro keys hkeys
    have hlen : ¬ keys.length = 0 := by
      simpa [List.length_eq_zero] using hkeys
    simp only [sendUserLinksFrom, if_neg hlen]
    exact foldl_append_join (linkLine env store userId) keys linksHeaderText
  · intro k hk
    simp [linkLine, hk]
  · intro tok meta hk hu ht
    rw [hline (mkKey userId tok) meta hk, tokenOfKey_mkKey userId tok hu ht]

/-- The C6 witness store: one record for user 7 and one for user 8. -/
def c6Store : KVStore :=
  [(mkKey "7" "t1", ⟨"f1", "report.pdf", some 1048576⟩),
    (mkKey "8" "t2", ⟨"f2", "other.bin", some 3⟩)]

/-- Claim C6 witness: the empty scan notice and one reconstructed line at
concrete inputs. -/
theorem c6_witness :
    sendUserLinks env0 c6Store "9" = noLinksText ∧
    linkLine env0 c6Store "7" (mkKey "7" "t1") =
      "• " ++ "report.pdf" ++ " (" ++ toFixed2MB (some 1048576) ++ " MB)\n`" ++
        linkFor env0 "7" "t1" ++ "`\n\n" :=
  ⟨(c6_list_links env0 c6Store "9").1 rfl,
    (c6_list_links env0 c6Store "7").2.2.2.2 "t1" ⟨"f1", "report.pdf", some 1048576⟩
      rfl (by decide) (by decide)⟩

end File2Link
